import Mathlib

/-!
# Process-execution layer (`c_processes.c`)

A shallow embedding of the six C functions of `src/c_processes.c`
(`execute`, `c_write`, `c_read`, `c_kill`, `c_wait`, `c_wait_forever`) and of
the declarations of `src/c_processes.h`, followed by the contracts that hold
of them and by evaluations of the code at three inputs where it leaks pipe
descriptors, closes the standard input of the child, or reports an end of
stream on an open pipe.

Conventions of the embedding.

* C `int`, `pid_t` and `ssize_t` values are `Int`; `size_t` is `Nat`.
* An OS call is not code of the repository.  What a call returned (its return
  value and the `errno` it left) is an input of the embedded function, and every
  call that is made is appended to a trace of `Syscall` events, in program
  order.
* A C function can finish in three ways (`Outcome`): it returns to its caller,
  the process terminates through `exit`, or the process image is replaced by
  `execvp`.
* `fork` returns twice.  `execute` is followed in one process at a time: the
  value `fork` returned in that process selects the parent or the child
  branch, exactly as the C code does.
-/

namespace ProcessControl

/-! ## Declarations of `c_processes.h` -/

/-- Enumerator `E_PIPE` of `enum ErrorCode`. -/
def E_PIPE : Int := -1

/-- Enumerator `E_FORK` of `enum ErrorCode`. -/
def E_FORK : Int := -2

/-- Enumerator `E_WRITE_IO` of `enum ErrorCode`. -/
def E_WRITE_IO : Int := -3

/-- Enumerator `E_READ_EOF` of `enum ErrorCode`. -/
def E_READ_EOF : Int := -4

/-- Enumerator `E_READ_IO` of `enum ErrorCode`. -/
def E_READ_IO : Int := -5

/-- The struct `ProcessDescriptor`: the handle filled by `execute`. -/
structure ProcessDescriptor where
  proc_pid : Int
  proc_stdin : Int
  proc_stdout : Int
  proc_stderr : Int
deriving DecidableEq, Repr

/-- Enumerator `K_SIGTERM` of `enum KillLevel` (a C enum is an integer). -/
def K_SIGTERM : Int := 0

/-- Enumerator `K_SIGKILL` of `enum KillLevel`. -/
def K_SIGKILL : Int := 1

/-! ## Constants of the system headers (Linux values) -/

/-- Descriptor number of standard input (`unistd.h`). -/
def STDIN_FILENO : Int := 0

/-- Descriptor number of standard output (`unistd.h`). -/
def STDOUT_FILENO : Int := 1

/-- Descriptor number of standard error (`unistd.h`). -/
def STDERR_FILENO : Int := 2

/-- Signal number of `SIGTERM` (`signal.h`). -/
def SIGTERM : Int := 15

/-- Signal number of `SIGKILL` (`signal.h`). -/
def SIGKILL : Int := 9

/-- Option flag `WNOHANG` of `waitpid` (`sys/wait.h`). -/
def WNOHANG : Int := 1

/-- Error number `ECHILD` (`errno.h`). -/
def ECHILD : Int := 10

/-! ## Events and outcomes -/

/-- The three local descriptor arrays of `execute`. -/
inductive PipeVar
  | fd_in
  | fd_out
  | fd_err
deriving DecidableEq, Repr

/-- One call into the OS or the C library, with the arguments that matter. -/
inductive Syscall
  | pipe (arr : PipeVar)
  | fork
  | close (fd : Int)
  | dup2 (oldfd newfd : Int)
  | chdir (path : String)
  | execvp (file : String) (argv : List String)
  | perror (msg : String)
  | printf (msg : String)
  | exit (status : Int)
  | write (fd : Int) (buff : List Nat) (size : Nat)
  | read (fd : Int) (size : Nat)
  | kill (pid : Int) (sig : Int)
  | waitpid (pid : Int) (options : Int)
deriving DecidableEq, Repr

/-- How a C function finishes in the process that runs it. -/
inductive Outcome (α : Type)
  | returned (v : α)
  | exited (status : Int)
  | replaced
deriving DecidableEq, Repr

/-- The process was terminated through `exit`. -/
def Outcome.terminated {α : Type} : Outcome α → Bool
  | .exited _ => true
  | _ => false

/-- The run of a function that touches no memory of its caller: how it
finished and the calls it made. -/
structure Run (α : Type) where
  outcome : Outcome α
  trace : List Syscall
deriving DecidableEq, Repr

/-- The run of `c_write` or `c_read`: the value returned, the caller's
`*error_info` and buffer after the call, and the calls made. -/
structure IoRun where
  ret : Int
  error_info : Int
  buff : List Nat
  trace : List Syscall
deriving DecidableEq, Repr

/-! ## `c_write` (lines 111-121) -/

/-- The function `c_write`.  `r` and `errno` are what `write` returned and the
error number it left. -/
def c_write (fd : Int) (buff : List Nat) (size : Nat) (error_info : Int)
    (r errno : Int) : IoRun :=
  -- ssize_t r = write(fd, buff, size);
  let trace := [Syscall.write fd buff size]
  if r = -1 then
    -- *error_info = errno; return E_WRITE_IO;
    { ret := E_WRITE_IO, error_info := errno, buff := buff, trace := trace }
  else
    -- return r;
    { ret := r, error_info := error_info, buff := buff, trace := trace }

/-! ## `c_read` (lines 123-140) -/

/-- What one `read` call did: its return value, the error number it left and
the bytes it stored at the start of the buffer. -/
structure ReadOS where
  ret : Int
  errno : Int
  data : List Nat
deriving DecidableEq, Repr

/-- The function `c_read`.  `os` is what the `read` call did. -/
def c_read (fd : Int) (buff : List Nat) (size : Nat) (error_info : Int)
    (os : ReadOS) : IoRun :=
  -- r = read(fd, buff, size);
  let trace := [Syscall.read fd size]
  let buff := os.data ++ buff.drop os.data.length
  let r := os.ret
  if r = 0 then
    -- return E_READ_EOF;
    { ret := E_READ_EOF, error_info := error_info, buff := buff, trace := trace }
  else if r = -1 then
    -- *error_info = errno; return E_READ_IO;
    { ret := E_READ_IO, error_info := os.errno, buff := buff, trace := trace }
  else
    -- return r;
    { ret := r, error_info := error_info, buff := buff, trace := trace }

/-- The reading side of a pipe as the OS sees it: the bytes written and not
yet read, and whether some write end is still open. -/
structure PipeStream where
  buffered : List Nat
  writersOpen : Bool
deriving DecidableEq, Repr

/-- The remote end has closed and no more bytes will arrive. -/
def PipeStream.atEOF (st : PipeStream) : Prop :=
  st.buffered = [] ∧ st.writersOpen = false

instance (st : PipeStream) : Decidable st.atEOF := by
  unfold PipeStream.atEOF; infer_instance

/-- POSIX `read` on a blocking pipe descriptor.  `fault` is an error the OS
raises (a bad descriptor, an interrupted call).  Without an error a request
for zero bytes returns zero; otherwise the call delivers buffered bytes,
returns zero at end of stream, and does not return (`none`) while the pipe is
empty and a writer remains. -/
def sys_read (st : PipeStream) (size : Nat) (fault : Option Int) : Option ReadOS :=
  match fault with
  | some e => some { ret := -1, errno := e, data := [] }
  | none =>
    if size = 0 then some { ret := 0, errno := 0, data := [] }
    else if st.buffered ≠ [] then
      some { ret := (st.buffered.take size).length, errno := 0,
             data := st.buffered.take size }
    else if st.writersOpen then none
    else some { ret := 0, errno := 0, data := [] }

/-- The function `c_read` on a descriptor that reads the pipe `st`: `none` while
the `read` call is blocked. -/
def c_read_pipe (st : PipeStream) (fault : Option Int) (fd : Int) (buff : List Nat)
    (size : Nat) (error_info : Int) : Option IoRun :=
  (sys_read st size fault).map (c_read fd buff size error_info)

/-! ## `c_kill` (lines 142-157) -/

/-- The function `c_kill`.  `kill_ret` and `kill_errno` are what the `kill`
call returned and the error number it left; the code reads neither. -/
def c_kill (pid : Int) (l : Int) (_kill_ret _kill_errno : Int) : Run Unit :=
  -- switch (l)
  if l = K_SIGTERM then
    -- case K_SIGTERM: kill(pid, SIGTERM); break;
    { outcome := .returned (), trace := [Syscall.kill pid SIGTERM] }
  else if l = K_SIGKILL then
    -- case K_SIGKILL: kill(pid, SIGKILL); break;
    { outcome := .returned (), trace := [Syscall.kill pid SIGKILL] }
  else
    -- default: break;
    { outcome := .returned (), trace := [] }

/-! ## `c_wait` (lines 162-179) and `c_wait_forever` (lines 181-196) -/

/-- The message both wait functions print before they terminate the process. -/
def waitBugMessage : String :=
  "Bug found when calling wait. EINVAL found or the call was interrupted by a signal (which should not be happening btw).\n"

/-- The function `c_wait`.  `e` and `errno` are what `waitpid` returned and the
error number it left. -/
def c_wait (pid : Int) (e errno : Int) : Run Int :=
  -- int e = waitpid(pid, NULL, WNOHANG);
  let trace := [Syscall.waitpid pid WNOHANG]
  if e < 0 then
    if errno = ECHILD then
      -- return -1;
      { outcome := .returned (-1), trace := trace }
    else
      -- printf(...); exit(-1);
      { outcome := .exited (-1),
        trace := trace ++ [Syscall.printf waitBugMessage, Syscall.exit (-1)] }
  else
    -- return e;
    { outcome := .returned e, trace := trace }

/-- The function `c_wait_forever`.  `e` and `errno` are what `waitpid` returned
and the error number it left. -/
def c_wait_forever (pid : Int) (e errno : Int) : Run Unit :=
  -- int e = waitpid(pid, NULL, 0);
  let trace := [Syscall.waitpid pid 0]
  if e < 0 then
    if errno = ECHILD then
      -- return;
      { outcome := .returned (), trace := trace }
    else
      -- printf(...); exit(-1);
      { outcome := .exited (-1),
        trace := trace ++ [Syscall.printf waitBugMessage, Syscall.exit (-1)] }
  else
    { outcome := .returned (), trace := trace }

/-! ## Descriptor tables -/

/-- What an open descriptor refers to: a file that was open before `execute`
was called, or one end of the pipe made for one of the three local arrays. -/
inductive FileObj
  | inherited (id : Nat)
  | pipeRead (arr : PipeVar)
  | pipeWrite (arr : PipeVar)
deriving DecidableEq, Repr

/-- The descriptor table of one process: `none` for a closed descriptor. -/
abbrev FdTable := Int → Option FileObj

/-- The table with descriptor `fd` made to refer to `o` (closed for `none`). -/
def FdTable.set (t : FdTable) (fd : Int) (o : Option FileObj) : FdTable :=
  fun x => if x = fd then o else t x

/-- POSIX `close`: the descriptor is closed; closing a closed descriptor fails
and changes nothing. -/
def sys_close (t : FdTable) (fd : Int) : FdTable :=
  t.set fd none

/-- POSIX `dup2`: fails and changes nothing when `oldfd` is not open, does
nothing when both numbers are equal, and otherwise makes `newfd` refer to what
`oldfd` refers to, closing `newfd` first if it was open. -/
def sys_dup2 (t : FdTable) (oldfd newfd : Int) : FdTable :=
  match t oldfd with
  | none => t
  | some o => if oldfd = newfd then t else t.set newfd (some o)

/-! ## `execute` (lines 10-109) -/

/-- What one `pipe` call did: it stored a fresh read end and write end, or it
failed with an error number. -/
inductive PipeResult
  | ok (rd wr : Int)
  | fail (errno : Int)
deriving DecidableEq, Repr

/-- What the OS answers to the calls of one run of `execute`: the result of the
`pipe` call for each array (read only if that call is made), the value `fork`
returns in the process that is followed and the error number it leaves, and the
error number of `execvp` when it fails (`none`: the image is replaced). -/
structure SpawnOS where
  pipe_in : PipeResult
  pipe_out : PipeResult
  pipe_err : PipeResult
  fork_ret : Int
  fork_errno : Int
  exec_errno : Option Int
deriving DecidableEq, Repr

/-- The state `execute` works on: the descriptor table of the process, the
three local arrays, the caller's `*d` and `*e_info`, and the calls made. -/
structure ExecState where
  fds : FdTable
  fd_in : Int × Int
  fd_out : Int × Int
  fd_err : Int × Int
  d : ProcessDescriptor
  e_info : Int
  trace : List Syscall

/-- The process at the moment `execute` is called: its descriptor table and
the uninitialised contents of the three local arrays. -/
structure ProcImage where
  fds : FdTable
  stack_in : Int × Int
  stack_out : Int × Int
  stack_err : Int × Int

/-- The call `close(fd)`. -/
def ExecState.close (s : ExecState) (fd : Int) : ExecState :=
  { s with fds := sys_close s.fds fd, trace := s.trace ++ [Syscall.close fd] }

/-- The call `dup2(oldfd, newfd)`. -/
def ExecState.dup2 (s : ExecState) (oldfd newfd : Int) : ExecState :=
  { s with fds := sys_dup2 s.fds oldfd newfd,
           trace := s.trace ++ [Syscall.dup2 oldfd newfd] }

/-- A call with no effect on the state that is modelled. -/
def ExecState.log (s : ExecState) (c : Syscall) : ExecState :=
  { s with trace := s.trace ++ [c] }

/-- Storing a pair in one of the three local arrays. -/
def ExecState.setArr (s : ExecState) (arr : PipeVar) (v : Int × Int) : ExecState :=
  match arr with
  | .fd_in => { s with fd_in := v }
  | .fd_out => { s with fd_out := v }
  | .fd_err => { s with fd_err := v }

/-- The call `pipe(arr)`: the return value, the error number and the state
after it.  On success both ends are open and stored in the array. -/
def ExecState.pipe (s : ExecState) (arr : PipeVar) (res : PipeResult) :
    Int × Int × ExecState :=
  match res with
  | .ok rd wr =>
    (0, 0, { (s.setArr arr (rd, wr)) with
               fds := (s.fds.set rd (some (.pipeRead arr))).set wr (some (.pipeWrite arr)),
               trace := s.trace ++ [Syscall.pipe arr] })
  | .fail errno => (-1, errno, s.log (Syscall.pipe arr))

/-- The message the child prints when `execvp` fails. -/
def execFailMessage : String :=
  "Here is the child process talking. Exec called failed so the process path is probably wrong. Not gonna deal with communicating this to my parent tbh."

/-- Lines 91-108: the code after the child block. -/
def executeTail (pipe_input pipe_output pipe_err pid : Int) (s : ExecState) :
    Outcome Int × ExecState :=
  -- if (pipe_input == 1) { close(fd_in[0]); d->proc_stdin = fd_in[1]; }
  let s := if pipe_input = 1 then
      let s := s.close s.fd_in.1
      { s with d := { s.d with proc_stdin := s.fd_in.2 } }
    else s
  -- if (pipe_output == 1) { close(fd_out[1]); d->proc_stdout = fd_out[0]; }
  let s := if pipe_output = 1 then
      let s := s.close s.fd_out.2
      { s with d := { s.d with proc_stdout := s.fd_out.1 } }
    else s
  -- if (pipe_err == 1) { close(fd_err[1]); d->proc_stderr = fd_err[0]; }
  let s := if pipe_err = 1 then
      let s := s.close s.fd_err.2
      { s with d := { s.d with proc_stderr := s.fd_err.1 } }
    else s
  -- d->proc_pid = pid; return 0;
  (.returned 0, { s with d := { s.d with proc_pid := pid } })

/-- Lines 62-81: the redirection steps of the child. -/
def childRedirect (pipe_input pipe_output pipe_err : Int) (s : ExecState) : ExecState :=
  -- if (pipe_input == 1) { close(fd_in[1]); dup2(fd_in[0], STDIN_FILENO); close(fd_in[0]); }
  let s := if pipe_input = 1 then
      ((s.close s.fd_in.2).dup2 s.fd_in.1 STDIN_FILENO).close s.fd_in.1
    else s
  -- if (pipe_output == 1) { close(fd_out[0]); dup2(fd_out[1], STDOUT_FILENO); close(fd_out[1]); }
  let s := if pipe_output = 1 then
      ((s.close s.fd_out.1).dup2 s.fd_out.2 STDOUT_FILENO).close s.fd_out.2
    else s
  -- if (pipe_err == 1) { close(fd_err[0]); dup2(fd_err[1], STDERR_FILENO); close(fd_err[1]); }
  if pipe_err = 1 then
    ((s.close s.fd_err.1).dup2 s.fd_err.2 STDERR_FILENO).close s.fd_err.2
  else s

/-- Lines 60-108 in the process where `fork` returned `pid` (not negative). -/
def executeForked (command : String) (arguments : List String) (server_directory : String)
    (pipe_input pipe_output pipe_err : Int) (os : SpawnOS) (pid : Int) (s : ExecState) :
    Outcome Int × ExecState :=
  -- if (pid == 0)
  if pid = 0 then
    let s := childRedirect pipe_input pipe_output pipe_err s
    -- chdir(server_directory);
    let s := s.log (Syscall.chdir server_directory)
    -- if (execvp(command, arguments) < 0)
    let s := s.log (Syscall.execvp command arguments)
    match os.exec_errno with
    | none => (.replaced, s)
    | some _ =>
      -- a failed execvp returns -1
      let rv : Int := -1
      if rv < 0 then
        -- perror(...); exit(33);
        (.exited 33, (s.log (Syscall.perror execFailMessage)).log (Syscall.exit 33))
      else executeTail pipe_input pipe_output pipe_err pid s
  else executeTail pipe_input pipe_output pipe_err pid s

/-- Lines 53-108: `fork` and what follows. -/
def executeFork (command : String) (arguments : List String) (server_directory : String)
    (pipe_input pipe_output pipe_err : Int) (os : SpawnOS) (s : ExecState) :
    Outcome Int × ExecState :=
  -- if ((pid = fork()) < 0) { *e_info = errno; return E_FORK; }
  let s := s.log Syscall.fork
  let pid := os.fork_ret
  if pid < 0 then (.returned E_FORK, { s with e_info := os.fork_errno })
  else executeForked command arguments server_directory pipe_input pipe_output pipe_err os pid s

/-- Lines 33-108: the `pipe` call for `fd_err` and what follows. -/
def executeErrPipe (command : String) (arguments : List String) (server_directory : String)
    (pipe_input pipe_output pipe_err : Int) (os : SpawnOS) (s : ExecState) :
    Outcome Int × ExecState :=
  -- if (pipe_err == 1) { if (pipe(fd_err) < 0) { *e_info = errno; return E_PIPE; } }
  if pipe_err = 1 then
    match s.pipe .fd_err os.pipe_err with
    | (rv, errno, s) =>
      if rv < 0 then (.returned E_PIPE, { s with e_info := errno })
      else executeFork command arguments server_directory pipe_input pipe_output pipe_err os s
  else executeFork command arguments server_directory pipe_input pipe_output pipe_err os s

/-- Lines 25-108: the `pipe` call for `fd_out` and what follows. -/
def executeOutPipe (command : String) (arguments : List String) (server_directory : String)
    (pipe_input pipe_output pipe_err : Int) (os : SpawnOS) (s : ExecState) :
    Outcome Int × ExecState :=
  -- if (pipe_output == 1) { if (pipe(fd_out) < 0) { *e_info = errno; return E_PIPE; } }
  if pipe_output = 1 then
    match s.pipe .fd_out os.pipe_out with
    | (rv, errno, s) =>
      if rv < 0 then (.returned E_PIPE, { s with e_info := errno })
      else executeErrPipe command arguments server_directory pipe_input pipe_output pipe_err os s
  else executeErrPipe command arguments server_directory pipe_input pipe_output pipe_err os s

/-- The function `execute`, compiled without `DEBUG`.  `img` is the process at
the call and `os` what the OS answers; the result is how the function finishes
in the process that is followed, and the state of that process then. -/
def execute (command : String) (arguments : List String) (server_directory : String)
    (d : ProcessDescriptor) (e_info : Int) (pipe_input pipe_output pipe_err : Int)
    (os : SpawnOS) (img : ProcImage) : Outcome Int × ExecState :=
  let s : ExecState :=
    { fds := img.fds, fd_in := img.stack_in, fd_out := img.stack_out,
      fd_err := img.stack_err, d := d, e_info := e_info, trace := [] }
  -- if (pipe_input == 1) { if (pipe(fd_in) < 0) { *e_info = errno; return E_PIPE; } }
  if pipe_input = 1 then
    match s.pipe .fd_in os.pipe_in with
    | (rv, errno, s) =>
      if rv < 0 then (.returned E_PIPE, { s with e_info := errno })
      else executeOutPipe command arguments server_directory pipe_input pipe_output pipe_err os s
  else executeOutPipe command arguments server_directory pipe_input pipe_output pipe_err os s

/-- A process with the three standard descriptors open and nothing else. -/
def stdImage : ProcImage :=
  { fds := fun fd => if fd = 0 then some (.inherited 0) else if fd = 1 then some (.inherited 1)
                     else if fd = 2 then some (.inherited 2) else none,
    stack_in := (0, 0), stack_out := (0, 0), stack_err := (0, 0) }

/-- A process whose standard input is closed: descriptors 1 and 2 are open. -/
def noStdinImage : ProcImage :=
  { fds := fun fd => if fd = 1 then some (.inherited 1)
                     else if fd = 2 then some (.inherited 2) else none,
    stack_in := (0, 0), stack_out := (0, 0), stack_err := (0, 0) }

/-- A handle whose fields hold `-1`, as a caller leaves it before the call. -/
def blankHandle : ProcessDescriptor :=
  { proc_pid := -1, proc_stdin := -1, proc_stdout := -1, proc_stderr := -1 }

/-- The `pipe` call succeeded. -/
def PipeResult.isOk : PipeResult → Bool
  | .ok _ _ => true
  | .fail _ => false

/-- The `pipe` calls for the streams whose flag is 1, in program order. -/
def pipeCalls (pipe_input pipe_output pipe_err : Int) : List Syscall :=
  (if pipe_input = 1 then [Syscall.pipe .fd_in] else []) ++
  (if pipe_output = 1 then [Syscall.pipe .fd_out] else []) ++
  (if pipe_err = 1 then [Syscall.pipe .fd_err] else [])

/-- The descriptors of the pipes made for the streams whose flag is 1, given
the read and write end each `pipe` call stores. -/
def createdFds (pipe_input pipe_output pipe_err : Int) (ri wi ro wo re we : Int) : List Int :=
  (if pipe_input = 1 then [ri, wi] else []) ++
  (if pipe_output = 1 then [ro, wo] else []) ++
  (if pipe_err = 1 then [re, we] else [])

/-! ## Contracts of `c_write`, `c_read`, `c_kill` and the wait functions -/

/-- C8: `c_write` makes exactly one `write` call; when that call succeeds
(a count between 0 and the requested length) the count is returned unchanged
and `*error_info` is left alone; when it fails (`-1`) the result is
`E_WRITE_IO` with `*error_info` set to the error number; and the result of a
failed call is never the result of a successful one. -/
theorem c_write_contract (fd : Int) (buff : List Nat) (size : Nat)
    (error_info r errno : Int) :
    (c_write fd buff size error_info r errno).trace = [Syscall.write fd buff size] ∧
    (0 ≤ r → r ≤ size →
      (c_write fd buff size error_info r errno).ret = r ∧
      0 ≤ (c_write fd buff size error_info r errno).ret ∧
      (c_write fd buff size error_info r errno).ret ≤ size ∧
      (c_write fd buff size error_info r errno).error_info = error_info) ∧
    (r = -1 →
      (c_write fd buff size error_info r errno).ret = E_WRITE_IO ∧
      (c_write fd buff size error_info r errno).error_info = errno) ∧
    (∀ r2 errno2 : Int, 0 ≤ r2 →
      (c_write fd buff size error_info (-1) errno).ret ≠
        (c_write fd buff size error_info r2 errno2).ret) := by
  refine ⟨?_, ?_, ?_, ?_⟩
  · unfold c_write; split <;> rfl
  · intro h0 hs
    have hne : r ≠ -1 := by omega
    simp [c_write, hne, h0, hs]
  · intro h
    simp [c_write, h]
  · intro r2 errno2 h2
    have hne : r2 ≠ -1 := by omega
    simp only [c_write, hne, if_true, if_false, E_WRITE_IO]
    omega

/-- A short write of 2 of 3 bytes is reported as 2 and leaves `*error_info`. -/
theorem c_write_contract_witness :
    (c_write 4 [104, 105, 10] 3 0 2 0).ret = 2 ∧
    (c_write 4 [104, 105, 10] 3 0 2 0).error_info = 0 ∧
    (c_write 4 [104, 105, 10] 3 0 (-1) 32).ret = E_WRITE_IO ∧
    (c_write 4 [104, 105, 10] 3 0 (-1) 32).error_info = 32 :=
  ⟨((c_write_contract 4 [104, 105, 10] 3 0 2 0).2.1 (by decide) (by decide)).1,
   ((c_write_contract 4 [104, 105, 10] 3 0 2 0).2.1 (by decide) (by decide)).2.2.2,
   ((c_write_contract 4 [104, 105, 10] 3 0 (-1) 32).2.2.1 rfl).1,
   ((c_write_contract 4 [104, 105, 10] 3 0 (-1) 32).2.2.1 rfl).2⟩

/-- What `c_read` makes of the value `read` returned: zero becomes
`E_READ_EOF`, `-1` becomes `E_READ_IO` with the error number stored, and a
positive count is returned unchanged; the three results differ. -/
theorem c_read_of_ret (fd : Int) (buff : List Nat) (size : Nat) (error_info : Int)
    (os : ReadOS) :
    (c_read fd buff size error_info os).trace = [Syscall.read fd size] ∧
    (os.ret = 0 → (c_read fd buff size error_info os).ret = E_READ_EOF ∧
      (c_read fd buff size error_info os).error_info = error_info) ∧
    (os.ret = -1 → (c_read fd buff size error_info os).ret = E_READ_IO ∧
      (c_read fd buff size error_info os).error_info = os.errno) ∧
    (0 < os.ret → (c_read fd buff size error_info os).ret = os.ret ∧
      (c_read fd buff size error_info os).error_info = error_info ∧
      (c_read fd buff size error_info os).ret ≠ E_READ_EOF ∧
      (c_read fd buff size error_info os).ret ≠ E_READ_IO) := by
  refine ⟨?_, ?_, ?_, ?_⟩
  · unfold c_read; simp only; split
    · rfl
    · split <;> rfl
  · intro h; simp [c_read, h]
  · intro h; simp [c_read, h]
  · intro h
    have h0 : os.ret ≠ 0 := by omega
    have h1 : os.ret ≠ -1 := by omega
    simp only [c_read, h0, h1, if_false, E_READ_EOF, E_READ_IO, true_and]
    omega

/-- For a request of at least one byte on a pipe, `c_read` always gives
`E_READ_EOF` exactly at end of stream. -/
theorem c_read_pipe_eof_iff (st : PipeStream) (fd : Int) (buff : List Nat) (size : Nat)
    (error_info : Int) (run : IoRun) (hsize : 0 < size)
    (h : c_read_pipe st none fd buff size error_info = some run) :
    run.ret = E_READ_EOF ↔ st.atEOF := by
  have hs : size ≠ 0 := by omega
  unfold c_read_pipe sys_read at h
  simp only [hs, if_false] at h
  by_cases hb : st.buffered = []
  · cases hw : st.writersOpen
    · simp [hb, hw, c_read] at h
      subst h
      simp [PipeStream.atEOF, hb, hw]
    · simp [hb, hw] at h
  · have hlen : 0 < (st.buffered.take size).length := by
      rw [List.length_take]
      have : 0 < st.buffered.length := List.length_pos.mpr hb
      omega
    simp only [ne_eq, hb, not_false_eq_true, if_true, Option.map_some', Option.some.injEq] at h
    subst h
    have h0 : ((st.buffered.take size).length : Int) ≠ 0 := by omega
    have h1 : ((st.buffered.take size).length : Int) ≠ -1 := by omega
    simp only [c_read, h0, h1, if_false, E_READ_EOF, PipeStream.atEOF, hb, false_and, iff_false]
    omega

/-- C4: a `c_read` of maximum length 0 on a pipe that holds two unread bytes
and whose write end is still open returns `E_READ_EOF`, although the stream
is not at its end. -/
theorem c_read_zero_length_reports_eof :
    c_read_pipe { buffered := [104, 105], writersOpen := true } none 5 [] 0 7 =
      some { ret := E_READ_EOF, error_info := 7, buff := [], trace := [Syscall.read 5 0] } ∧
    ¬ PipeStream.atEOF { buffered := [104, 105], writersOpen := true } := by
  decide

/-- C9: `c_kill` sends `SIGTERM` once for `K_SIGTERM`, `SIGKILL` once for
`K_SIGKILL` and nothing for any other level; it always returns, and two runs
that differ only in what `kill` answered are equal. -/
theorem c_kill_contract (pid l ret1 errno1 ret2 errno2 : Int) :
    (l = K_SIGTERM → (c_kill pid l ret1 errno1).trace = [Syscall.kill pid SIGTERM]) ∧
    (l = K_SIGKILL → (c_kill pid l ret1 errno1).trace = [Syscall.kill pid SIGKILL]) ∧
    (l ≠ K_SIGTERM → l ≠ K_SIGKILL → (c_kill pid l ret1 errno1).trace = []) ∧
    (c_kill pid l ret1 errno1).outcome = .returned () ∧
    c_kill pid l ret1 errno1 = c_kill pid l ret2 errno2 ∧
    SIGTERM ≠ SIGKILL := by
  refine ⟨?_, ?_, ?_, ?_, rfl, by decide⟩
  · intro h; simp [c_kill, h]
  · intro h; simp [c_kill, h, K_SIGKILL, K_SIGTERM]
  · intro h1 h2; simp [c_kill, h1, h2]
  · unfold c_kill; split
    · rfl
    · split <;> rfl

/-- The forceful level sends `SIGKILL` once, whether `kill` answers 0 or
fails with `ESRCH`. -/
theorem c_kill_contract_witness :
    (c_kill 4242 K_SIGKILL 0 0).trace = [Syscall.kill 4242 SIGKILL] ∧
    c_kill 4242 K_SIGKILL 0 0 = c_kill 4242 K_SIGKILL (-1) 3 :=
  ⟨(c_kill_contract 4242 K_SIGKILL 0 0 (-1) 3).2.1 rfl,
   (c_kill_contract 4242 K_SIGKILL 0 0 (-1) 3).2.2.2.2.1⟩

/-- C5: `c_wait` calls `waitpid` with `WNOHANG` first and with no other
option; it returns 0 when `waitpid` answers 0 (still running), the reaped pid
when the answer is positive, and `-1` when `waitpid` fails with `ECHILD`; a
value it returns is one of these three, each for its own answer. -/
theorem c_wait_outcomes (pid e errno : Int) :
    (c_wait pid e errno).trace.head? = some (Syscall.waitpid pid WNOHANG) ∧
    (∀ p o, Syscall.waitpid p o ∈ (c_wait pid e errno).trace → p = pid ∧ o = WNOHANG) ∧
    (e = 0 → (c_wait pid e errno).outcome = .returned 0) ∧
    (0 < e → (c_wait pid e errno).outcome = .returned e) ∧
    (e < 0 → errno = ECHILD → (c_wait pid e errno).outcome = .returned (-1)) ∧
    (∀ v, (c_wait pid e errno).outcome = .returned v →
      (v = 0 ∧ e = 0) ∨ (0 < v ∧ e = v) ∨ (v = -1 ∧ e < 0 ∧ errno = ECHILD)) := by
  refine ⟨?_, ?_, ?_, ?_, ?_, ?_⟩
  · unfold c_wait; simp only; split
    · split <;> rfl
    · rfl
  · intro p o
    unfold c_wait; simp only; split
    · split <;> simp
    · simp
  · intro h; simp [c_wait, h]
  · intro h
    have : ¬ e < 0 := by omega
    simp [c_wait, this]
  · intro h1 h2; simp [c_wait, h1, h2]
  · intro v
    unfold c_wait; simp only; split
    · split
      · intro h
        simp only [Outcome.returned.injEq] at h
        omega
      · intro h; simp at h
    · intro h
      simp only [Outcome.returned.injEq] at h
      omega

/-- A child that has exited is reported by its pid; a pid that is not a child
is reported as `-1`. -/
theorem c_wait_outcomes_witness :
    (c_wait 4242 4242 0).outcome = .returned 4242 ∧
    (c_wait (-1) 0 0).outcome = .returned 0 ∧
    (c_wait 0 (-1) ECHILD).outcome = .returned (-1) :=
  ⟨(c_wait_outcomes 4242 4242 0).2.2.2.1 (by decide),
   (c_wait_outcomes (-1) 0 0).2.2.1 rfl,
   (c_wait_outcomes 0 (-1) ECHILD).2.2.2.2.1 (by decide) rfl⟩

/-- C6: each of `c_wait` and `c_wait_forever` terminates the process exactly
when `waitpid` fails with an error other than `ECHILD`; on `ECHILD` both
return (`c_wait` with `-1`), and when `waitpid` succeeds both return. -/
theorem wait_terminates_iff (pid e errno : Int) :
    ((c_wait pid e errno).outcome.terminated = true ↔ (e < 0 ∧ errno ≠ ECHILD)) ∧
    ((c_wait_forever pid e errno).outcome.terminated = true ↔ (e < 0 ∧ errno ≠ ECHILD)) ∧
    (e < 0 → errno = ECHILD →
      (c_wait pid e errno).outcome = .returned (-1) ∧
      (c_wait_forever pid e errno).outcome = .returned ()) ∧
    (0 ≤ e →
      (c_wait pid e errno).outcome = .returned e ∧
      (c_wait_forever pid e errno).outcome = .returned ()) := by
  refine ⟨?_, ?_, ?_, ?_⟩
  · unfold c_wait; simp only; split
    · split <;> simp [Outcome.terminated, *]
    · simp [Outcome.terminated, *]
  · unfold c_wait_forever; simp only; split
    · split <;> simp [Outcome.terminated, *]
    · simp [Outcome.terminated, *]
  · intro h1 h2; simp [c_wait, c_wait_forever, h1, h2]
  · intro h
    have : ¬ e < 0 := by omega
    simp [c_wait, c_wait_forever, this]

/-- An interrupted `waitpid` (`EINTR`, 4) terminates the process in both
functions; `ECHILD` does not. -/
theorem wait_terminates_iff_witness :
    (c_wait 4242 (-1) 4).outcome.terminated = true ∧
    (c_wait_forever 4242 (-1) 4).outcome.terminated = true ∧
    (c_wait 4242 (-1) ECHILD).outcome = .returned (-1) ∧
    (c_wait_forever 4242 (-1) ECHILD).outcome = .returned () :=
  ⟨(wait_terminates_iff 4242 (-1) 4).1.mpr (by decide),
   (wait_terminates_iff 4242 (-1) 4).2.1.mpr (by decide),
   ((wait_terminates_iff 4242 (-1) ECHILD).2.2.1 (by decide) rfl).1,
   ((wait_terminates_iff 4242 (-1) ECHILD).2.2.1 (by decide) rfl).2⟩

/-! ## Stage lemmas for `execute` -/

section Stages

variable (command : String) (arguments : List String) (server_directory : String)
  (pipe_input pipe_output pipe_err : Int) (os : SpawnOS)

theorem PipeResult.isOk_iff (r : PipeResult) : r.isOk = true ↔ ∃ rd wr, r = .ok rd wr := by
  cases r <;> simp [PipeResult.isOk]

/-- When the `fd_err` pipe is not requested or succeeds, the code reaches `fork`
with only that `pipe` call added to the trace and `*d`, `*e_info` untouched. -/
theorem executeErrPipe_ok (s : ExecState) (h3 : pipe_err = 1 → os.pipe_err.isOk) :
    ∃ s2, executeErrPipe command arguments server_directory pipe_input pipe_output pipe_err os s
        = executeFork command arguments server_directory pipe_input pipe_output pipe_err os s2 ∧
      s2.trace = s.trace ++ (if pipe_err = 1 then [Syscall.pipe .fd_err] else []) ∧
      s2.d = s.d ∧ s2.e_info = s.e_info := by
  by_cases he : pipe_err = 1
  · obtain ⟨a, b, hp⟩ := (PipeResult.isOk_iff _).mp (h3 he)
    refine ⟨{ (s.setArr .fd_err (a, b)) with
          fds := (s.fds.set a (some (.pipeRead .fd_err))).set b (some (.pipeWrite .fd_err)),
          trace := s.trace ++ [Syscall.pipe .fd_err] }, ?_, ?_, ?_, ?_⟩
    · simp only [executeErrPipe, he, if_true, hp, ExecState.pipe]
      simp only [show ¬ (0 : Int) < 0 by decide, if_false]
    · simp [he, ExecState.setArr]
    · simp [ExecState.setArr]
    · simp [ExecState.setArr]
  · exact ⟨s, by simp [executeErrPipe, he], by simp [he], rfl, rfl⟩

/-- The same for the `fd_out` and `fd_err` pipes together. -/
theorem executeOutPipe_ok (s : ExecState) (h2 : pipe_output = 1 → os.pipe_out.isOk)
    (h3 : pipe_err = 1 → os.pipe_err.isOk) :
    ∃ s2, executeOutPipe command arguments server_directory pipe_input pipe_output pipe_err os s
        = executeFork command arguments server_directory pipe_input pipe_output pipe_err os s2 ∧
      s2.trace = s.trace ++ (if pipe_output = 1 then [Syscall.pipe .fd_out] else []) ++
        (if pipe_err = 1 then [Syscall.pipe .fd_err] else []) ∧
      s2.d = s.d ∧ s2.e_info = s.e_info := by
  by_cases ho : pipe_output = 1
  · obtain ⟨a, b, hp⟩ := (PipeResult.isOk_iff _).mp (h2 ho)
    obtain ⟨s2, h, ht, hd, hi⟩ := executeErrPipe_ok command arguments server_directory
      pipe_input pipe_output pipe_err os
      { (s.setArr .fd_out (a, b)) with
          fds := (s.fds.set a (some (.pipeRead .fd_out))).set b (some (.pipeWrite .fd_out)),
          trace := s.trace ++ [Syscall.pipe .fd_out] } h3
    refine ⟨s2, ?_, ?_, ?_, ?_⟩
    · rw [← h]
      simp only [executeOutPipe, ho, if_true, hp, ExecState.pipe]
      simp only [show ¬ (0 : Int) < 0 by decide, if_false]
    · simp [ht, ho]
    · simp [hd, ExecState.setArr]
    · simp [hi, ExecState.setArr]
  · obtain ⟨s2, h, ht, hd, hi⟩ := executeErrPipe_ok command arguments server_directory
      pipe_input pipe_output pipe_err os s h3
    exact ⟨s2, by simp [executeOutPipe, ho, h], by simp [ht, ho], hd, hi⟩

/-- When every requested `pipe` call succeeds, `execute` reaches `fork` after
exactly the requested `pipe` calls, with `*d` and `*e_info` untouched. -/
theorem execute_ok (d : ProcessDescriptor) (e_info : Int) (img : ProcImage)
    (h1 : pipe_input = 1 → os.pipe_in.isOk) (h2 : pipe_output = 1 → os.pipe_out.isOk)
    (h3 : pipe_err = 1 → os.pipe_err.isOk) :
    ∃ s2, execute command arguments server_directory d e_info pipe_input pipe_output pipe_err
          os img
        = executeFork command arguments server_directory pipe_input pipe_output pipe_err os s2 ∧
      s2.trace = pipeCalls pipe_input pipe_output pipe_err ∧ s2.d = d ∧ s2.e_info = e_info := by
  by_cases hi : pipe_input = 1
  · obtain ⟨a, b, hp⟩ := (PipeResult.isOk_iff _).mp (h1 hi)
    obtain ⟨s2, h, ht, hd, he⟩ := executeOutPipe_ok command arguments server_directory
      pipe_input pipe_output pipe_err os
      { fds := (img.fds.set a (some (.pipeRead .fd_in))).set b (some (.pipeWrite .fd_in)),
        fd_in := (a, b), fd_out := img.stack_out, fd_err := img.stack_err, d := d,
        e_info := e_info, trace := [Syscall.pipe .fd_in] } h2 h3
    refine ⟨s2, ?_, ?_, ?_, ?_⟩
    · rw [← h]
      simp only [execute, hi, if_true, hp, ExecState.pipe, ExecState.setArr]
      simp only [show ¬ (0 : Int) < 0 by decide, if_false, List.nil_append]
    · simp [ht, hi, pipeCalls]
    · simp [hd]
    · simp [he]
  · obtain ⟨s2, h, ht, hd, he⟩ := executeOutPipe_ok command arguments server_directory
      pipe_input pipe_output pipe_err os
      { fds := img.fds, fd_in := img.stack_in, fd_out := img.stack_out,
        fd_err := img.stack_err, d := d, e_info := e_info, trace := [] } h2 h3
    exact ⟨s2, by simp [execute, hi, h], by simp [ht, hi, pipeCalls], hd, he⟩

/-- The code after the child block only adds calls to the trace. -/
theorem executeTail_trace (pid : Int) (s : ExecState) :
    ∃ rest, (executeTail pipe_input pipe_output pipe_err pid s).2.trace = s.trace ++ rest := by
  by_cases hi : pipe_input = 1 <;> by_cases ho : pipe_output = 1 <;>
    by_cases he : pipe_err = 1 <;>
    simp [executeTail, ExecState.close, hi, ho, he]

/-- The redirection steps only add calls to the trace. -/
theorem childRedirect_trace (s : ExecState) :
    ∃ rest, (childRedirect pipe_input pipe_output pipe_err s).trace = s.trace ++ rest := by
  by_cases hi : pipe_input = 1 <;> by_cases ho : pipe_output = 1 <;>
    by_cases he : pipe_err = 1 <;>
    simp [childRedirect, ExecState.close, ExecState.dup2, hi, ho, he]

/-- From `fork` on, the trace is the one before, then `fork`, then the rest. -/
theorem executeFork_trace (s : ExecState) :
    ∃ rest, (executeFork command arguments server_directory pipe_input pipe_output pipe_err
      os s).2.trace = s.trace ++ Syscall.fork :: rest := by
  unfold executeFork
  simp only
  split
  · exact ⟨[], by simp [ExecState.log]⟩
  · unfold executeForked
    split
    · obtain ⟨rest, hr⟩ := childRedirect_trace pipe_input pipe_output pipe_err
        (s.log Syscall.fork)
      cases hx : os.exec_errno with
      | none =>
        refine ⟨rest ++ [Syscall.chdir server_directory, Syscall.execvp command arguments], ?_⟩
        simp only [ExecState.log] at hr ⊢
        rw [hr]
        simp
      | some e =>
        refine ⟨rest ++ [Syscall.chdir server_directory, Syscall.execvp command arguments,
          Syscall.perror execFailMessage, Syscall.exit 33], ?_⟩
        simp only [ExecState.log, show (-1 : Int) < 0 by decide, if_true] at hr ⊢
        rw [hr]
        simp
    · obtain ⟨rest, hr⟩ := executeTail_trace pipe_input pipe_output pipe_err os.fork_ret
        (s.log Syscall.fork)
      refine ⟨rest, ?_⟩
      rw [hr]
      simp [ExecState.log]

/-- A failed `fork` gives `E_FORK` and stores its error number. -/
theorem executeFork_fail (s : ExecState) (hf : os.fork_ret < 0) :
    (executeFork command arguments server_directory pipe_input pipe_output pipe_err os s).1
      = .returned E_FORK ∧
    (executeFork command arguments server_directory pipe_input pipe_output pipe_err os s).2.e_info
      = os.fork_errno := by
  simp [executeFork, hf]

/-- In the child, a failed `execvp` is followed by `perror` and `exit(33)`. -/
theorem executeFork_child_exec_fail (s : ExecState) (errno : Int) (hz : os.fork_ret = 0)
    (hx : os.exec_errno = some errno) :
    (executeFork command arguments server_directory pipe_input pipe_output pipe_err os s).1
      = .exited 33 ∧
    ∃ pre, (executeFork command arguments server_directory pipe_input pipe_output pipe_err
      os s).2.trace = pre ++ [Syscall.execvp command arguments,
        Syscall.perror execFailMessage, Syscall.exit 33] := by
  refine ⟨by simp [executeFork, executeForked, hz, hx], ?_⟩
  refine ⟨(childRedirect pipe_input pipe_output pipe_err (s.log Syscall.fork)).trace ++
    [Syscall.chdir server_directory], ?_⟩
  simp [executeFork, executeForked, hz, hx, ExecState.log]

/-- In the parent the code returns 0 and stores the pid `fork` returned. -/
theorem executeFork_parent (s : ExecState) (hf : 0 < os.fork_ret) :
    (executeFork command arguments server_directory pipe_input pipe_output pipe_err os s).1
      = .returned 0 ∧
    (executeFork command arguments server_directory pipe_input pipe_output pipe_err
      os s).2.d.proc_pid = os.fork_ret := by
  have hf1 : ¬ os.fork_ret < 0 := by omega
  have hf2 : ¬ os.fork_ret = 0 := by omega
  simp [executeFork, executeForked, executeTail, hf1, hf2]

/-- In the parent nothing from `fork` on depends on what `execvp` does. -/
theorem executeFork_exec_indep (s : ExecState) (ex : Option Int) (hf : 0 < os.fork_ret) :
    executeFork command arguments server_directory pipe_input pipe_output pipe_err
        { os with exec_errno := ex } s
      = executeFork command arguments server_directory pipe_input pipe_output pipe_err os s := by
  have hf1 : ¬ os.fork_ret < 0 := by omega
  have hf2 : ¬ os.fork_ret = 0 := by omega
  simp [executeFork, executeForked, hf1, hf2]

/-- In the parent nothing from the `fd_err` pipe on depends on `execvp`. -/
theorem executeErrPipe_exec_indep (s : ExecState) (ex : Option Int) (hf : 0 < os.fork_ret) :
    executeErrPipe command arguments server_directory pipe_input pipe_output pipe_err
        { os with exec_errno := ex } s
      = executeErrPipe command arguments server_directory pipe_input pipe_output pipe_err
          os s := by
  simp only [executeErrPipe, executeFork_exec_indep command arguments server_directory
    pipe_input pipe_output pipe_err os _ ex hf]

/-- In the parent nothing from the `fd_out` pipe on depends on `execvp`. -/
theorem executeOutPipe_exec_indep (s : ExecState) (ex : Option Int) (hf : 0 < os.fork_ret) :
    executeOutPipe command arguments server_directory pipe_input pipe_output pipe_err
        { os with exec_errno := ex } s
      = executeOutPipe command arguments server_directory pipe_input pipe_output pipe_err
          os s := by
  simp only [executeOutPipe, executeErrPipe_exec_indep command arguments server_directory
    pipe_input pipe_output pipe_err os _ ex hf]

end Stages

/-! ## Contracts of `execute` -/

/-- C2: `fork` is called exactly when every requested `pipe` call succeeded,
and then the trace starts with all requested `pipe` calls followed by `fork`;
when a requested `pipe` call fails, `execute` returns `E_PIPE` with `*e_info`
set to the error number of that call, `fork` is not called and `*d` is
unchanged; when all requested pipes succeed and `fork` fails, it returns
`E_FORK` with `*e_info` set to the error number of `fork`; and `E_PIPE`,
`E_FORK` and 0 are pairwise distinct. -/
theorem execute_error_contract (command : String) (arguments : List String)
    (server_directory : String) (d : ProcessDescriptor) (e_info : Int)
    (pipe_input pipe_output pipe_err : Int) (os : SpawnOS) (img : ProcImage) :
    ((pipe_input = 1 → os.pipe_in.isOk) → (pipe_output = 1 → os.pipe_out.isOk) →
      (pipe_err = 1 → os.pipe_err.isOk) →
      ∃ rest, (execute command arguments server_directory d e_info pipe_input pipe_output
        pipe_err os img).2.trace
          = pipeCalls pipe_input pipe_output pipe_err ++ Syscall.fork :: rest) ∧
    (∀ errno, pipe_input = 1 → os.pipe_in = .fail errno →
      (execute command arguments server_directory d e_info pipe_input pipe_output
        pipe_err os img).1 = .returned E_PIPE ∧
      (execute command arguments server_directory d e_info pipe_input pipe_output
        pipe_err os img).2.e_info = errno ∧
      Syscall.fork ∉ (execute command arguments server_directory d e_info pipe_input
        pipe_output pipe_err os img).2.trace ∧
      (execute command arguments server_directory d e_info pipe_input pipe_output
        pipe_err os img).2.d = d) ∧
    (∀ errno, (pipe_input = 1 → os.pipe_in.isOk) → pipe_output = 1 →
      os.pipe_out = .fail errno →
      (execute command arguments server_directory d e_info pipe_input pipe_output
        pipe_err os img).1 = .returned E_PIPE ∧
      (execute command arguments server_directory d e_info pipe_input pipe_output
        pipe_err os img).2.e_info = errno ∧
      Syscall.fork ∉ (execute command arguments server_directory d e_info pipe_input
        pipe_output pipe_err os img).2.trace ∧
      (execute command arguments server_directory d e_info pipe_input pipe_output
        pipe_err os img).2.d = d) ∧
    (∀ errno, (pipe_input = 1 → os.pipe_in.isOk) → (pipe_output = 1 → os.pipe_out.isOk) →
      pipe_err = 1 → os.pipe_err = .fail errno →
      (execute command arguments server_directory d e_info pipe_input pipe_output
        pipe_err os img).1 = .returned E_PIPE ∧
      (execute command arguments server_directory d e_info pipe_input pipe_output
        pipe_err os img).2.e_info = errno ∧
      Syscall.fork ∉ (execute command arguments server_directory d e_info pipe_input
        pipe_output pipe_err os img).2.trace ∧
      (execute command arguments server_directory d e_info pipe_input pipe_output
        pipe_err os img).2.d = d) ∧
    ((pipe_input = 1 → os.pipe_in.isOk) → (pipe_output = 1 → os.pipe_out.isOk) →
      (pipe_err = 1 → os.pipe_err.isOk) → os.fork_ret < 0 →
      (execute command arguments server_directory d e_info pipe_input pipe_output
        pipe_err os img).1 = .returned E_FORK ∧
      (execute command arguments server_directory d e_info pipe_input pipe_output
        pipe_err os img).2.e_info = os.fork_errno) ∧
    E_PIPE ≠ E_FORK ∧ E_PIPE ≠ 0 ∧ E_FORK ≠ 0 := by
  obtain ⟨p_in, p_out, p_err, fork_ret, fork_errno, exec_errno⟩ := os
  refine ⟨?_, ?_, ?_, ?_, ?_, by decide, by decide, by decide⟩
  · intro h1 h2 h3
    obtain ⟨s2, h, ht, -, -⟩ := execute_ok command arguments server_directory pipe_input
      pipe_output pipe_err _ d e_info img h1 h2 h3
    obtain ⟨rest, hr⟩ := executeFork_trace command arguments server_directory pipe_input
      pipe_output pipe_err _ s2
    exact ⟨rest, by rw [h, hr, ht]⟩
  · intro errno hi hf
    simp only at hf
    subst hf
    simp [execute, ExecState.pipe, ExecState.log, hi]
  · intro errno h1 ho hf
    simp only at hf h1
    subst hf
    by_cases hi : pipe_input = 1
    · cases p_in with
      | ok a b => simp [execute, executeOutPipe, ExecState.pipe, ExecState.log, ExecState.setArr, hi, ho]
      | fail e => simp [hi, PipeResult.isOk] at h1
    · simp [execute, executeOutPipe, ExecState.pipe, ExecState.log, ExecState.setArr, hi, ho]
  · intro errno h1 h2 he hf
    simp only at hf h1 h2
    subst hf
    by_cases hi : pipe_input = 1 <;> by_cases ho : pipe_output = 1 <;>
      cases p_in <;> cases p_out
    all_goals try (simp [hi, PipeResult.isOk] at h1; done)
    all_goals try (simp [ho, PipeResult.isOk] at h2; done)
    all_goals
      simp [execute, executeOutPipe, executeErrPipe, ExecState.pipe, ExecState.log,
        ExecState.setArr, hi, ho, he]
  · intro h1 h2 h3 hf
    obtain ⟨s2, h, -, -, -⟩ := execute_ok command arguments server_directory pipe_input
      pipe_output pipe_err _ d e_info img h1 h2 h3
    rw [h]
    exact executeFork_fail command arguments server_directory pipe_input pipe_output
      pipe_err _ s2 hf

/-- C3: when every requested `pipe` call succeeds and `fork` returns a
positive pid, `execute` returns 0; the handle holds that pid and, for each flag
that is 1, the parent-side end of that pipe, while the field of a flag that is
not 1 is as before the call; the calls made are the requested `pipe` calls,
`fork`, and one `close` of the child-side end of each pipe made (no `pipe`
call for a flag that is not 1); and when the descriptors the pipes returned
are distinct, each child-side end is closed in the parent, each parent-side
end is open on its pipe, and every other descriptor is as before. -/
theorem execute_parent_success (command : String) (arguments : List String)
    (server_directory : String) (d : ProcessDescriptor) (e_info : Int)
    (pipe_input pipe_output pipe_err : Int) (os : SpawnOS) (img : ProcImage)
    (ri wi ro wo re we : Int)
    (hin : pipe_input = 1 → os.pipe_in = .ok ri wi)
    (hout : pipe_output = 1 → os.pipe_out = .ok ro wo)
    (herr : pipe_err = 1 → os.pipe_err = .ok re we)
    (hfork : 0 < os.fork_ret) :
    (execute command arguments server_directory d e_info pipe_input pipe_output
        pipe_err os img).1 = .returned 0 ∧
    (execute command arguments server_directory d e_info pipe_input pipe_output
        pipe_err os img).2.d =
      { proc_pid := os.fork_ret,
        proc_stdin := if pipe_input = 1 then wi else d.proc_stdin,
        proc_stdout := if pipe_output = 1 then ro else d.proc_stdout,
        proc_stderr := if pipe_err = 1 then re else d.proc_stderr } ∧
    (execute command arguments server_directory d e_info pipe_input pipe_output
        pipe_err os img).2.trace =
      pipeCalls pipe_input pipe_output pipe_err ++ [Syscall.fork] ++
        (if pipe_input = 1 then [Syscall.close ri] else []) ++
        (if pipe_output = 1 then [Syscall.close wo] else []) ++
        (if pipe_err = 1 then [Syscall.close we] else []) ∧
    ((createdFds pipe_input pipe_output pipe_err ri wi ro wo re we).Nodup →
      (pipe_input = 1 →
        (execute command arguments server_directory d e_info pipe_input pipe_output
        pipe_err os img).2.fds ri = none ∧
        (execute command arguments server_directory d e_info pipe_input pipe_output
        pipe_err os img).2.fds wi = some (.pipeWrite .fd_in)) ∧
      (pipe_output = 1 →
        (execute command arguments server_directory d e_info pipe_input pipe_output
        pipe_err os img).2.fds wo = none ∧
        (execute command arguments server_directory d e_info pipe_input pipe_output
        pipe_err os img).2.fds ro = some (.pipeRead .fd_out)) ∧
      (pipe_err = 1 →
        (execute command arguments server_directory d e_info pipe_input pipe_output
        pipe_err os img).2.fds we = none ∧
        (execute command arguments server_directory d e_info pipe_input pipe_output
        pipe_err os img).2.fds re = some (.pipeRead .fd_err)) ∧
      (∀ fd, fd ∉ createdFds pipe_input pipe_output pipe_err ri wi ro wo re we →
        (execute command arguments server_directory d e_info pipe_input pipe_output
        pipe_err os img).2.fds fd = img.fds fd)) := by
  have hf1 : ¬ os.fork_ret < 0 := by omega
  have hf2 : ¬ os.fork_ret = 0 := by omega
  by_cases hi : pipe_input = 1 <;> by_cases ho : pipe_output = 1 <;>
    by_cases he : pipe_err = 1
  all_goals
    first
      | have hin2 := hin hi
      | skip
    first
      | have hout2 := hout ho
      | skip
    first
      | have herr2 := herr he
      | skip
    refine ⟨?_, ?_, ?_, ?_⟩
    · simp [execute, executeOutPipe, executeErrPipe, executeFork, executeForked, executeTail,
        ExecState.pipe, ExecState.log, ExecState.close, ExecState.setArr, *]
    · simp [execute, executeOutPipe, executeErrPipe, executeFork, executeForked, executeTail,
        ExecState.pipe, ExecState.log, ExecState.close, ExecState.setArr, *]
    · simp [execute, executeOutPipe, executeErrPipe, executeFork, executeForked, executeTail,
        ExecState.pipe, ExecState.log, ExecState.close, ExecState.setArr, pipeCalls, *]
    · intro hnd
      simp [createdFds, hi, ho, he] at hnd
      simp [execute, executeOutPipe, executeErrPipe, executeFork, executeForked, executeTail,
        ExecState.pipe, ExecState.log, ExecState.close, ExecState.setArr, FdTable.set,
        sys_close, createdFds, *]
      try
        (repeat' apply And.intro) <;>
          first
            | omega
            | (intros; simp [*])

/-- The parent of a spawn with stdin and stdout redirected: the pipes are
3/4 and 5/6, the handle gets 4 and 5, and descriptors 3 and 6 are closed. -/
theorem execute_parent_success_witness :
    (execute "java" ["java", "-jar", "server.jar"] "/srv" blankHandle 0 1 1 0
      { pipe_in := .ok 3 4, pipe_out := .ok 5 6, pipe_err := .fail 0, fork_ret := 4242,
        fork_errno := 0, exec_errno := none } stdImage).1 = .returned 0 ∧
    (execute "java" ["java", "-jar", "server.jar"] "/srv" blankHandle 0 1 1 0
      { pipe_in := .ok 3 4, pipe_out := .ok 5 6, pipe_err := .fail 0, fork_ret := 4242,
        fork_errno := 0, exec_errno := none } stdImage).2.d =
      { proc_pid := 4242, proc_stdin := 4, proc_stdout := 5, proc_stderr := -1 } ∧
    (execute "java" ["java", "-jar", "server.jar"] "/srv" blankHandle 0 1 1 0
      { pipe_in := .ok 3 4, pipe_out := .ok 5 6, pipe_err := .fail 0, fork_ret := 4242,
        fork_errno := 0, exec_errno := none } stdImage).2.fds 3 = none ∧
    (execute "java" ["java", "-jar", "server.jar"] "/srv" blankHandle 0 1 1 0
      { pipe_in := .ok 3 4, pipe_out := .ok 5 6, pipe_err := .fail 0, fork_ret := 4242,
        fork_errno := 0, exec_errno := none } stdImage).2.fds 4
      = some (.pipeWrite .fd_in) :=
  have h := execute_parent_success "java" ["java", "-jar", "server.jar"] "/srv" blankHandle 0
    1 1 0 { pipe_in := .ok 3 4, pipe_out := .ok 5 6, pipe_err := .fail 0, fork_ret := 4242,
            fork_errno := 0, exec_errno := none } stdImage 3 4 5 6 0 0
    (fun _ => rfl) (fun _ => rfl) (fun h => absurd h (by decide)) (by decide)
  ⟨h.1, h.2.1, ((h.2.2.2 (by decide)).1 rfl).1, ((h.2.2.2 (by decide)).1 rfl).2⟩

/-- C7: when the requested pipes succeed, in the child (`fork` returned 0) a
failed `execvp` is followed at once by `perror` and `exit(33)`: the process
terminates with status 33, which is not 0, and `execute` does not return
there; in the parent (`fork` returned a positive pid) `execute` returns 0 with
the pid stored, and its whole result is the same whatever `execvp` does. -/
theorem execute_exec_failure (command : String) (arguments : List String)
    (server_directory : String) (d : ProcessDescriptor) (e_info : Int)
    (pipe_input pipe_output pipe_err : Int) (os : SpawnOS) (img : ProcImage)
    (h1 : pipe_input = 1 → os.pipe_in.isOk) (h2 : pipe_output = 1 → os.pipe_out.isOk)
    (h3 : pipe_err = 1 → os.pipe_err.isOk) :
    (os.fork_ret = 0 → ∀ errno, os.exec_errno = some errno →
      (execute command arguments server_directory d e_info pipe_input pipe_output
        pipe_err os img).1 = .exited 33 ∧
      (∀ v, (execute command arguments server_directory d e_info pipe_input pipe_output
        pipe_err os img).1 ≠ .returned v) ∧
      ∃ pre, (execute command arguments server_directory d e_info pipe_input pipe_output
        pipe_err os img).2.trace = pre ++ [Syscall.execvp command arguments,
        Syscall.perror execFailMessage, Syscall.exit 33]) ∧
    (0 < os.fork_ret →
      (execute command arguments server_directory d e_info pipe_input pipe_output
        pipe_err os img).1 = .returned 0 ∧
      (execute command arguments server_directory d e_info pipe_input pipe_output
        pipe_err os img).2.d.proc_pid = os.fork_ret ∧
      ∀ ex, execute command arguments server_directory d e_info pipe_input pipe_output
          pipe_err { os with exec_errno := ex } img
        = execute command arguments server_directory d e_info pipe_input pipe_output
        pipe_err os img) ∧
    (33 : Int) ≠ 0 := by
  obtain ⟨s2, h, -, -, -⟩ := execute_ok command arguments server_directory pipe_input
    pipe_output pipe_err os d e_info img h1 h2 h3
  refine ⟨?_, ?_, by decide⟩
  · intro hz errno hx
    obtain ⟨ho, ht⟩ := executeFork_child_exec_fail command arguments server_directory
      pipe_input pipe_output pipe_err os s2 errno hz hx
    rw [h]
    refine ⟨ho, ?_, ht⟩
    intro v hv
    rw [ho] at hv
    cases hv
  · intro hf
    obtain ⟨ho, hp⟩ := executeFork_parent command arguments server_directory
      pipe_input pipe_output pipe_err os s2 hf
    refine ⟨by rw [h]; exact ho, by rw [h]; exact hp, ?_⟩
    intro ex
    simp only [execute, executeOutPipe_exec_indep command arguments server_directory
      pipe_input pipe_output pipe_err os _ ex hf]

/-- A child that cannot start `/no/such/program` exits with status 33, and
its parent gets 0 and the pid all the same. -/
theorem execute_exec_failure_witness :
    (execute "/no/such/program" ["prog"] "/srv" blankHandle 0 0 1 0
      { pipe_in := .fail 0, pipe_out := .ok 3 4, pipe_err := .fail 0, fork_ret := 0,
        fork_errno := 0, exec_errno := some 2 } stdImage).1 = .exited 33 ∧
    (execute "/no/such/program" ["prog"] "/srv" blankHandle 0 0 1 0
      { pipe_in := .fail 0, pipe_out := .ok 3 4, pipe_err := .fail 0, fork_ret := 4242,
        fork_errno := 0, exec_errno := some 2 } stdImage).1 = .returned 0 :=
  ⟨((execute_exec_failure "/no/such/program" ["prog"] "/srv" blankHandle 0 0 1 0
      { pipe_in := .fail 0, pipe_out := .ok 3 4, pipe_err := .fail 0, fork_ret := 0,
        fork_errno := 0, exec_errno := some 2 } stdImage
      (fun h => absurd h (by decide)) (fun _ => rfl) (fun h => absurd h (by decide))).1
      rfl 2 rfl).1,
   ((execute_exec_failure "/no/such/program" ["prog"] "/srv" blankHandle 0 0 1 0
      { pipe_in := .fail 0, pipe_out := .ok 3 4, pipe_err := .fail 0, fork_ret := 4242,
        fork_errno := 0, exec_errno := some 2 } stdImage
      (fun h => absurd h (by decide)) (fun _ => rfl) (fun h => absurd h (by decide))).2.1
      (by decide)).1⟩

/-- The `pipe` call for stdout fails after the one for stdin succeeded: the
error number 24 is reported and `fork` is not called; and a failed `fork` is
reported as `E_FORK`. -/
theorem execute_error_contract_witness :
    (execute "java" ["java"] "/srv" blankHandle 0 1 1 0
      { pipe_in := .ok 3 4, pipe_out := .fail 24, pipe_err := .fail 0, fork_ret := 4242,
        fork_errno := 0, exec_errno := none } stdImage).1 = .returned E_PIPE ∧
    (execute "java" ["java"] "/srv" blankHandle 0 1 1 0
      { pipe_in := .ok 3 4, pipe_out := .fail 24, pipe_err := .fail 0, fork_ret := 4242,
        fork_errno := 0, exec_errno := none } stdImage).2.e_info = 24 ∧
    (execute "java" ["java"] "/srv" blankHandle 0 1 1 0
      { pipe_in := .ok 3 4, pipe_out := .ok 5 6, pipe_err := .fail 0, fork_ret := -1,
        fork_errno := 11, exec_errno := none } stdImage).1 = .returned E_FORK :=
  have h := (execute_error_contract "java" ["java"] "/srv" blankHandle 0 1 1 0
      { pipe_in := .ok 3 4, pipe_out := .fail 24, pipe_err := .fail 0, fork_ret := 4242,
        fork_errno := 0, exec_errno := none } stdImage).2.2.1 24 (fun _ => rfl) rfl rfl
  ⟨h.1, h.2.1,
   ((execute_error_contract "java" ["java"] "/srv" blankHandle 0 1 1 0
      { pipe_in := .ok 3 4, pipe_out := .ok 5 6, pipe_err := .fail 0, fork_ret := -1,
        fork_errno := 11, exec_errno := none } stdImage).2.2.2.2.1
      (fun _ => rfl) (fun _ => rfl) (fun h => absurd h (by decide)) (by decide)).1⟩

/-- C1: two failing calls that leave pipe descriptors open.  With stdin and
stdout requested, the stdin pipe is made on descriptors 3 and 4 and the
stdout `pipe` call fails: `execute` returns `E_PIPE` without a single `close`,
and 3 and 4, closed before the call, are open after it.  With stdin requested
and `fork` failing, `execute` returns `E_FORK` and 3 and 4 are open after
it as well. -/
theorem execute_failure_leaks_pipes :
    ((execute "java" ["java"] "/srv" blankHandle 0 1 1 0
        { pipe_in := .ok 3 4, pipe_out := .fail 24, pipe_err := .fail 0, fork_ret := 4242,
          fork_errno := 0, exec_errno := none } stdImage).1 = .returned E_PIPE ∧
      (execute "java" ["java"] "/srv" blankHandle 0 1 1 0
        { pipe_in := .ok 3 4, pipe_out := .fail 24, pipe_err := .fail 0, fork_ret := 4242,
          fork_errno := 0, exec_errno := none } stdImage).2.trace
        = [Syscall.pipe .fd_in, Syscall.pipe .fd_out] ∧
      stdImage.fds 3 = none ∧ stdImage.fds 4 = none ∧
      (execute "java" ["java"] "/srv" blankHandle 0 1 1 0
        { pipe_in := .ok 3 4, pipe_out := .fail 24, pipe_err := .fail 0, fork_ret := 4242,
          fork_errno := 0, exec_errno := none } stdImage).2.fds 3
        = some (.pipeRead .fd_in) ∧
      (execute "java" ["java"] "/srv" blankHandle 0 1 1 0
        { pipe_in := .ok 3 4, pipe_out := .fail 24, pipe_err := .fail 0, fork_ret := 4242,
          fork_errno := 0, exec_errno := none } stdImage).2.fds 4
        = some (.pipeWrite .fd_in)) ∧
    ((execute "java" ["java"] "/srv" blankHandle 0 1 0 0
        { pipe_in := .ok 3 4, pipe_out := .fail 0, pipe_err := .fail 0, fork_ret := -1,
          fork_errno := 11, exec_errno := none } stdImage).1 = .returned E_FORK ∧
      (execute "java" ["java"] "/srv" blankHandle 0 1 0 0
        { pipe_in := .ok 3 4, pipe_out := .fail 0, pipe_err := .fail 0, fork_ret := -1,
          fork_errno := 11, exec_errno := none } stdImage).2.trace
        = [Syscall.pipe .fd_in, Syscall.fork] ∧
      (execute "java" ["java"] "/srv" blankHandle 0 1 0 0
        { pipe_in := .ok 3 4, pipe_out := .fail 0, pipe_err := .fail 0, fork_ret := -1,
          fork_errno := 11, exec_errno := none } stdImage).2.fds 3
        = some (.pipeRead .fd_in) ∧
      (execute "java" ["java"] "/srv" blankHandle 0 1 0 0
        { pipe_in := .ok 3 4, pipe_out := .fail 0, pipe_err := .fail 0, fork_ret := -1,
          fork_errno := 11, exec_errno := none } stdImage).2.fds 4
        = some (.pipeWrite .fd_in)) := by
  decide

/-- C10: a process whose descriptor 0 is closed spawns with stdin requested
and `pipe` stores 0 as the read end and 3 as the write end.  The child runs
`close(3)`, `dup2(0, 0)`, `close(0)`: at the `execvp` call its descriptor 0 is
closed, so its standard input does not refer to the pipe. -/
theorem execute_child_closes_stdin :
    (execute "java" ["java"] "/srv" blankHandle 0 1 0 0
      { pipe_in := .ok 0 3, pipe_out := .fail 0, pipe_err := .fail 0, fork_ret := 0,
        fork_errno := 0, exec_errno := none } noStdinImage).1 = .replaced ∧
    (execute "java" ["java"] "/srv" blankHandle 0 1 0 0
      { pipe_in := .ok 0 3, pipe_out := .fail 0, pipe_err := .fail 0, fork_ret := 0,
        fork_errno := 0, exec_errno := none } noStdinImage).2.trace
      = [Syscall.pipe .fd_in, Syscall.fork, Syscall.close 3, Syscall.dup2 0 STDIN_FILENO,
         Syscall.close 0, Syscall.chdir "/srv", Syscall.execvp "java" ["java"]] ∧
    noStdinImage.fds 0 = none ∧
    (execute "java" ["java"] "/srv" blankHandle 0 1 0 0
      { pipe_in := .ok 0 3, pipe_out := .fail 0, pipe_err := .fail 0, fork_ret := 0,
        fork_errno := 0, exec_errno := none } noStdinImage).2.fds STDIN_FILENO = none := by
  decide

/-- When the six descriptors naming the pipe ends are distinct and none of
them is 0, 1 or 2, the child reaches `execvp` with each requested standard
descriptor on its pipe end and both original descriptors of that pipe closed. -/
theorem execute_child_redirects (command : String) (arguments : List String)
    (server_directory : String) (d : ProcessDescriptor) (e_info : Int)
    (pipe_input pipe_output pipe_err : Int) (os : SpawnOS) (img : ProcImage)
    (ri wi ro wo re we : Int)
    (hin : pipe_input = 1 → os.pipe_in = .ok ri wi)
    (hout : pipe_output = 1 → os.pipe_out = .ok ro wo)
    (herr : pipe_err = 1 → os.pipe_err = .ok re we)
    (hz : os.fork_ret = 0)
    (hnd : [ri, wi, ro, wo, re, we].Nodup)
    (hhigh : ∀ fd ∈ [ri, wi, ro, wo, re, we], 3 ≤ fd) :
    (pipe_input = 1 →
      (execute command arguments server_directory d e_info pipe_input pipe_output
        pipe_err os img).2.fds STDIN_FILENO = some (.pipeRead .fd_in) ∧
      (execute command arguments server_directory d e_info pipe_input pipe_output
        pipe_err os img).2.fds ri = none ∧
      (execute command arguments server_directory d e_info pipe_input pipe_output
        pipe_err os img).2.fds wi = none) ∧
    (pipe_output = 1 →
      (execute command arguments server_directory d e_info pipe_input pipe_output
        pipe_err os img).2.fds STDOUT_FILENO = some (.pipeWrite .fd_out) ∧
      (execute command arguments server_directory d e_info pipe_input pipe_output
        pipe_err os img).2.fds ro = none ∧
      (execute command arguments server_directory d e_info pipe_input pipe_output
        pipe_err os img).2.fds wo = none) ∧
    (pipe_err = 1 →
      (execute command arguments server_directory d e_info pipe_input pipe_output
        pipe_err os img).2.fds STDERR_FILENO = some (.pipeWrite .fd_err) ∧
      (execute command arguments server_directory d e_info pipe_input pipe_output
        pipe_err os img).2.fds re = none ∧
      (execute command arguments server_directory d e_info pipe_input pipe_output
        pipe_err os img).2.fds we = none) := by
  have hf1 : ¬ os.fork_ret < 0 := by omega
  simp only [List.nodup_cons, List.mem_cons, List.mem_singleton, List.not_mem_nil, not_or,
    List.nodup_nil, forall_eq_or_imp, forall_eq] at hnd hhigh
  have facts :
      ri ≠ wi ∧ ri ≠ ro ∧ ri ≠ wo ∧ ri ≠ re ∧ ri ≠ we ∧ wi ≠ ri ∧ wi ≠ ro ∧ wi ≠ wo ∧ wi ≠ re ∧
      wi ≠ we ∧ ro ≠ ri ∧ ro ≠ wi ∧ ro ≠ wo ∧ ro ≠ re ∧ ro ≠ we ∧ wo ≠ ri ∧ wo ≠ wi ∧ wo ≠ ro ∧
      wo ≠ re ∧ wo ≠ we ∧ re ≠ ri ∧ re ≠ wi ∧ re ≠ ro ∧ re ≠ wo ∧ re ≠ we ∧ we ≠ ri ∧ we ≠ wi ∧
      we ≠ ro ∧ we ≠ wo ∧ we ≠ re ∧ ri ≠ 0 ∧ 0 ≠ ri ∧ ri ≠ 1 ∧ 1 ≠ ri ∧ ri ≠ 2 ∧ 2 ≠ ri ∧
      wi ≠ 0 ∧ 0 ≠ wi ∧ wi ≠ 1 ∧ 1 ≠ wi ∧ wi ≠ 2 ∧ 2 ≠ wi ∧ ro ≠ 0 ∧ 0 ≠ ro ∧ ro ≠ 1 ∧ 1 ≠ ro ∧
      ro ≠ 2 ∧ 2 ≠ ro ∧ wo ≠ 0 ∧ 0 ≠ wo ∧ wo ≠ 1 ∧ 1 ≠ wo ∧ wo ≠ 2 ∧ 2 ≠ wo ∧ re ≠ 0 ∧ 0 ≠ re ∧
      re ≠ 1 ∧ 1 ≠ re ∧ re ≠ 2 ∧ 2 ≠ re ∧ we ≠ 0 ∧ 0 ≠ we ∧ we ≠ 1 ∧ 1 ≠ we ∧ we ≠ 2 ∧ 2 ≠ we := by
    repeat' apply And.intro
    all_goals
      intro h
      subst h
      first
        | (simp at hnd; done)
        | (clear hnd; omega)
  obtain ⟨p_in, p_out, p_err, fork_ret, fork_errno, exec_errno⟩ := os
  simp only at hin hout herr hz hf1
  subst hz
  by_cases hi : pipe_input = 1 <;> by_cases ho : pipe_output = 1 <;>
    by_cases he : pipe_err = 1
  all_goals
    first
      | have hin2 := hin hi
      | skip
    first
      | have hout2 := hout ho
      | skip
    first
      | have herr2 := herr he
      | skip
    clear hnd hhigh hin hout herr
    cases exec_errno <;>
    simp [execute, executeOutPipe, executeErrPipe, executeFork, executeForked, childRedirect,
      ExecState.pipe, ExecState.log, ExecState.close, ExecState.dup2, ExecState.setArr,
      FdTable.set, sys_close, sys_dup2, STDIN_FILENO, STDOUT_FILENO, STDERR_FILENO, *]

end ProcessControl
